import Mathlib

/-!
Verification of the sleepWave chart library (sleepWave.ts, sleep_block.ts,
canvas_event.ts) against its natural-language specification.

Numbers are modelled as exact rationals (ℚ); times as integers (ℤ,
milliseconds since the epoch, as Date.now returns). DOM side effects
(document.body.style.cursor, the tooltip proxy fields) are modelled as an
explicit interaction-state record. The canvas pixel buffer itself is not
modelled: no claim concerns painted pixels, only the geometry records the
code computes and the shapes it decides to draw.
-/

namespace SleepWaveSpec

/-- One rendered data block (class SleepWaveBlock of sleep_block.ts):
the geometry and style fields copied from the options object built in
SleepWave.draw. -/
structure SleepWaveBlock where
  startX : ℚ
  startY : ℚ
  endX : ℚ
  endY : ℚ
  hasStraight : Bool
  nowRadius : ℚ
  color : String
  title : String
  value : ℚ
  borderRadius : ℚ
  lineWidth : ℚ
deriving DecidableEq

/-- Tooltip content record (the blockInfo field written by the mousemove
handler). -/
structure BlockInfo where
  color : String
  title : String
  value : ℚ
deriving DecidableEq

/-- Observable interaction state around one block: the global cursor style
(document.body.style.cursor), the tooltip proxy fields (visible, pos,
blockInfo) and the block's stored last pointer position (this.point). -/
structure InteractionState where
  cursor : String
  visible : Bool
  pos : ℚ × ℚ
  blockInfo : BlockInfo
  point : ℚ × ℚ
deriving DecidableEq

/-- Bounding rectangle offset of the canvas element
(canvas.getBoundingClientRect). -/
structure BBox where
  left : ℚ
  top : ℚ
deriving DecidableEq

/-- getEventPosition of sleep_block.ts: converts viewport coordinates to
canvas coordinates by subtracting the bounding-box offset. -/
def getEventPosition (box : BBox) (clientX clientY : ℚ) : ℚ × ℚ :=
  (clientX - box.left, clientY - box.top)

/-- isEventInRegion of sleep_block.ts: stores the converted point, then
tests containment with four strict comparisons; on a miss it resets the
cursor to "default" and hides the tooltip before returning false. The
result is the boolean return value together with the updated interaction
state. -/
def isEventInRegion (b : SleepWaveBlock) (box : BBox) (ist : InteractionState)
    (clientX clientY : ℚ) : Bool × InteractionState :=
  let pt := getEventPosition box clientX clientY
  let ist1 : InteractionState := { ist with point := pt }
  let width := b.endX - b.startX
  let height := b.endY - b.startY
  if b.startX < pt.1 ∧ pt.1 < b.startX + width ∧ b.startY < pt.2 ∧ pt.2 < b.startY + height then
    (true, ist1)
  else
    (false, { ist1 with cursor := "default", visible := false })

/-- Spec-side predicate, written from the claim's words, for comparison
with the code: membership of a local point in the half-open box
[startX, startX+width) x [startY, startY+height). -/
def specHalfOpenBox (b : SleepWaveBlock) (x y : ℚ) : Prop :=
  b.startX ≤ x ∧ x < b.startX + (b.endX - b.startX)
    ∧ b.startY ≤ y ∧ y < b.startY + (b.endY - b.startY)

instance (b : SleepWaveBlock) (x y : ℚ) : Decidable (specHalfOpenBox b x y) := by
  unfold specHalfOpenBox; infer_instance

/-- Payload handed to Event.emit; the type field mirrors event.type, with
an absent or null field modelled as none. The detail field stands for the
rest of the event object. -/
structure EventPayload where
  type : Option String
  detail : ℕ
deriving DecidableEq

/-- The Event class of canvas_event.ts: the _listener map from event name
to the ordered array of registered handlers. Handlers are identified by
numeric ids; their behaviour is supplied separately to emit. -/
structure Event where
  listener : List (String × List ℕ)
deriving DecidableEq

/-- Lookup of the listener array registered under one event name
(none models an undefined key). -/
def Event.lookup (ev : Event) (ty : String) : Option (List ℕ) :=
  (ev.listener.find? (fun pr => pr.1 == ty)).map (fun pr => pr.2)

/-- The handler loop inside Event.emit: runs handlers left to right,
recording the ids invoked; a throwing handler (beh returning some msg)
stops the loop and the exception propagates uncaught. -/
def runHandlers (beh : ℕ → EventPayload → Option String) (e : EventPayload) :
    List ℕ → List ℕ × Option String
  | [] => ([], none)
  | h :: rest =>
    match beh h e with
    | none =>
      let r := runHandlers beh e rest
      (h :: r.1, r.2)
    | some msg => ([h], some msg)

/-- Event.emit of canvas_event.ts: returns early when the payload is null,
when its type field is null, or when no listener array exists for the
name; otherwise runs every registered handler in order with the payload.
Result: the handler ids invoked (in order) and the propagated exception,
if any. -/
def Event.emit (ev : Event) (beh : ℕ → EventPayload → Option String)
    (ty : String) (e : Option EventPayload) : List ℕ × Option String :=
  match e with
  | none => ([], none)
  | some pl =>
    match pl.type with
    | none => ([], none)
    | some _ =>
      match ev.lookup ty with
      | none => ([], none)
      | some hs => runHandlers beh pl hs

/-- State of one throttle closure (sleepWave.ts lines 10-29): lastExec
models lastExecTime (initially 0), pending models the scheduled timeout
(its fire time and the event captured by the closure), dispatches logs
the invocations of the wrapped function as (time, event id) pairs.
Times are absolute milliseconds as returned by Date.now. -/
structure ThrottleState where
  lastExec : ℤ
  pending : Option (ℤ × ℕ)
  dispatches : List (ℤ × ℕ)
deriving DecidableEq

def throttleInit : ThrottleState := { lastExec := 0, pending := none, dispatches := [] }

/-- One invocation of the throttled wrapper at time t with event e: the
leading branch runs the function at once when more than delay has elapsed
since lastExec; otherwise the pending timeout is replaced by one firing at
t + (delay - (t - lastExec)), capturing the current event. -/
def throttleCall (delay : ℤ) (st : ThrottleState) (t : ℤ) (e : ℕ) : ThrottleState :=
  if t - st.lastExec > delay then
    { st with lastExec := t, dispatches := st.dispatches ++ [(t, e)] }
  else
    { st with pending := some (t + (delay - (t - st.lastExec)), e) }

/-- Fires the pending timeout when its scheduled time has been reached by
time t (the host runs due timer callbacks before delivering a later
pointer event); the callback invokes the function and sets lastExecTime
to the time of the callback. -/
def fireDue (st : ThrottleState) (t : ℤ) : ThrottleState :=
  match st.pending with
  | some pr =>
    if pr.1 ≤ t then
      { lastExec := pr.1, pending := none, dispatches := st.dispatches ++ [(pr.1, pr.2)] }
    else st
  | none => st

/-- Runs a time-sorted list of wrapper invocations from the fresh closure
state, firing a due timeout before each invocation, and finally letting
any still-pending timeout fire. -/
def runThrottle (delay : ℤ) (calls : List (ℤ × ℕ)) : ThrottleState :=
  let final := calls.foldl (fun st c => throttleCall delay (fireDue st c.1) c.1 c.2) throttleInit
  match final.pending with
  | some pr => { lastExec := pr.1, pending := none, dispatches := final.dispatches ++ [(pr.1, pr.2)] }
  | none => final

/-- The chart fields that the reduce in SleepWave.draw reads while laying
out blocks and connectors. -/
structure LayoutParams where
  axisYwidth : ℚ
  Xdis : ℚ
  Ydis : ℚ
  borderRadius : ℚ
  sleepColor : List String
  sleepType : List String
  lineWidth : ℚ
deriving DecidableEq

/-- Geometry of one data block as computed in the body of the reduce in
SleepWave.draw, for an item (duration, typeIndex) whose block starts at
x. An out-of-range typeIndex yields the empty string (undefined array
element in the source). -/
def layoutSeg (p : LayoutParams) (x : ℚ) (item : ℚ × ℕ) : SleepWaveBlock :=
  let startX := x
  let endX := startX + item.1 * p.Xdis
  let startY := (item.2 : ℚ) * p.Ydis + p.borderRadius
  let endY := startY + p.Ydis - 2 * p.borderRadius
  let hasStraight : Bool := decide (endX - startX > 2 * p.borderRadius)
  let nowRadius := if hasStraight then p.borderRadius else (endX - startX) / 2
  { startX := startX, startY := startY, endX := endX, endY := endY,
    hasStraight := hasStraight, nowRadius := nowRadius,
    color := p.sleepColor.getD item.2 "", title := p.sleepType.getD item.2 "",
    value := item.1, borderRadius := p.borderRadius, lineWidth := p.lineWidth }

/-- The connector shape drawn between two adjacent blocks of differing
type (sleepWave.ts lines 321-359): gradient endpoints, direction and the
two radii used by its quadratic curves. -/
structure Connector where
  lineX : ℚ
  lineStartY : ℚ
  lineEndY : ℚ
  dir : Bool
  colorFrom : String
  colorTo : String
  preRadius : ℚ
  curRadius : ℚ
deriving DecidableEq

/-- Builds the connector for the previous reduce value pr = (endX,
typeIndex, nowRadius) and the current item with its freshly laid-out
block. -/
def mkConnector (p : LayoutParams) (pr : ℚ × ℕ × ℚ) (item : ℚ × ℕ)
    (block : SleepWaveBlock) : Connector :=
  let dir : Bool := decide (pr.2.1 > item.2)
  { lineX := block.startX
    lineStartY := if dir then (pr.2.1 : ℚ) * p.Ydis + p.borderRadius
      else ((pr.2.1 : ℚ) + 1) * p.Ydis - p.borderRadius
    lineEndY := if dir then block.endY else block.startY
    dir := dir
    colorFrom := p.sleepColor.getD pr.2.1 ""
    colorTo := p.sleepColor.getD item.2 ""
    preRadius := pr.2.2
    curRadius := block.nowRadius }

/-- Accumulator of the reduce in SleepWave.draw: pre is the value carried
between iterations ((endX, typeIndex, nowRadius); none models the initial
null), children and connectors record what has been drawn so far. -/
structure DrawAcc where
  pre : Option (ℚ × ℕ × ℚ)
  children : List SleepWaveBlock
  connectors : List Connector
deriving DecidableEq

/-- startX of the current block: the previous block's endX, or axisYwidth
for the first block. -/
def accStart (p : LayoutParams) (acc : DrawAcc) : ℚ :=
  match acc.pre with
  | some pr => pr.1
  | none => p.axisYwidth

/-- One iteration of the reduce in SleepWave.draw: lay out the block,
draw a connector when a previous block exists and its type differs,
carry (endX, typeIndex, nowRadius) forward. -/
def drawStep (p : LayoutParams) (acc : DrawAcc) (item : ℚ × ℕ) : DrawAcc :=
  let block := layoutSeg p (accStart p acc) item
  let connectors :=
    match acc.pre with
    | some pr =>
      if pr.2.1 ≠ item.2 then acc.connectors ++ [mkConnector p pr item block]
      else acc.connectors
    | none => acc.connectors
  { pre := some (block.endX, item.2, block.nowRadius),
    children := acc.children ++ [block],
    connectors := connectors }

/-- The full reduce over sleepData, starting from the empty children array
(SleepWave.draw resets this.children to [] before the fold). -/
def drawBlocks (p : LayoutParams) (sleepData : List (ℚ × ℕ)) : DrawAcc :=
  sleepData.foldl (drawStep p) { pre := none, children := [], connectors := [] }

/-- Reference recursion for the block list produced by the fold: each
block starts where the previous one ended. Used to prove properties of
drawBlocks by structural induction. -/
def segsFrom (p : LayoutParams) (x : ℚ) : List (ℚ × ℕ) → List SleepWaveBlock
  | [] => []
  | it :: l => layoutSeg p x it :: segsFrom p (layoutSeg p x it).endX l

/-- Number of adjacent type changes in a data list, given the type index
of the element just before the list. -/
def transitionsFrom (t : ℕ) : List (ℚ × ℕ) → ℕ
  | [] => 0
  | it :: l => (if t ≠ it.2 then 1 else 0) + transitionsFrom it.2 l

/-- Number of adjacent pairs of a data list whose type indices differ. -/
def transitions : List (ℚ × ℕ) → ℕ
  | [] => 0
  | it :: l => transitionsFrom it.2 l

/-- The mutable state of a SleepWave chart instance (sleepWave.ts class
fields). hasCtx models that init has run, so this.canvas and this.ctx are
non-null; listeners models the canvas element's registered event
listeners as (event name, closure identity) pairs, nextListenerId being
the identity the next freshly created throttle closure would get. -/
structure SleepWave where
  hasCtx : Bool
  canvasWidth : ℚ
  canvasHeight : ℚ
  children : List SleepWaveBlock
  sleepType : List String
  sleepColor : List String
  sleepData : List (ℚ × ℕ)
  axisColor : String
  axisYwidth : ℚ
  axisXheight : ℚ
  Xmax : ℚ
  Xmin : ℚ
  Xdis : ℚ
  Ydis : ℚ
  borderRadius : ℚ
  lineWidth : ℚ
  listeners : List (String × ℕ)
  nextListenerId : ℕ
deriving DecidableEq

/-- The SleepWaveOptions object accepted by setOption: every field
optional, omitted fields keep the previous instance value. -/
structure SleepWaveOptions where
  sleepData : Option (List (ℚ × ℕ)) := none
  Xmax : Option ℚ := none
  Xmin : Option ℚ := none
  sleepType : Option (List String) := none
  sleepColor : Option (List String) := none
  axisColor : Option String := none
  axisYwidth : Option ℚ := none
  axisXheight : Option ℚ := none
  borderRadius : Option ℚ := none
  lineWidth : Option ℚ := none
deriving DecidableEq

/-- Object.assign(this, option): each supplied field overwrites the
corresponding instance field. -/
def assign (s : SleepWave) (o : SleepWaveOptions) : SleepWave :=
  { s with
    sleepData := o.sleepData.getD s.sleepData,
    Xmax := o.Xmax.getD s.Xmax,
    Xmin := o.Xmin.getD s.Xmin,
    sleepType := o.sleepType.getD s.sleepType,
    sleepColor := o.sleepColor.getD s.sleepColor,
    axisColor := o.axisColor.getD s.axisColor,
    axisYwidth := o.axisYwidth.getD s.axisYwidth,
    axisXheight := o.axisXheight.getD s.axisXheight,
    borderRadius := o.borderRadius.getD s.borderRadius,
    lineWidth := o.lineWidth.getD s.lineWidth }

/-- SleepWave.updateProperties: recompute Xdis and Ydis from the canvas
box, then cap borderRadius at a quarter of the freshly computed Ydis.
The divisor of Ydis is the literal 4 in the source. -/
def updateProperties (s : SleepWave) : SleepWave :=
  if s.hasCtx then
    let s1 := { s with Xdis := (s.canvasWidth - s.axisYwidth) / (s.Xmax - s.Xmin) }
    let s2 := { s1 with Ydis := (s1.canvasHeight - s1.axisXheight) / 4 }
    { s2 with borderRadius := min (s2.Ydis / 4) s2.borderRadius }
  else s

/-- The layout parameters SleepWave.draw reads from the instance. -/
def layoutParamsOf (s : SleepWave) : LayoutParams :=
  { axisYwidth := s.axisYwidth, Xdis := s.Xdis, Ydis := s.Ydis,
    borderRadius := s.borderRadius, sleepColor := s.sleepColor,
    sleepType := s.sleepType, lineWidth := s.lineWidth }

/-- SleepWave.draw: guarded on the context, rebuilds this.children from
scratch by the reduce over sleepData. -/
def draw (s : SleepWave) : SleepWave :=
  if s.hasCtx then
    { s with children := (drawBlocks (layoutParamsOf s) s.sleepData).children }
  else s

/-- canvas.addEventListener semantics: appends the (event name, callback
identity) pair unless that exact pair is already registered. -/
def addEventListener (s : SleepWave) (name : String) (id : ℕ) : SleepWave :=
  if (name, id) ∈ s.listeners then s
  else { s with listeners := s.listeners ++ [(name, id)] }

/-- One arm of the forEach in SleepWave.initEvent: throttle(this.handleEvent, 50)
creates a fresh closure (a new callback identity), which is then passed
to canvas.addEventListener. -/
def attachThrottled (s : SleepWave) (name : String) : SleepWave :=
  let id := s.nextListenerId
  addEventListener { s with nextListenerId := id + 1 } name id

/-- The private eventList field of SleepWave. -/
def eventList : List String := ["click", "mousemove"]

/-- SleepWave.initEvent: guarded on the canvas, attaches one freshly
throttled listener per tracked event name. -/
def initEvent (s : SleepWave) : SleepWave :=
  if s.hasCtx then eventList.foldl attachThrottled s else s

/-- SleepWave.setOption: no-op before init; otherwise clears the surface
(pixel state, not modelled), merges the option fields onto the instance,
recomputes the derived properties, redraws and re-installs the throttled
listeners. -/
def setOption (s : SleepWave) (o : SleepWaveOptions) : SleepWave :=
  if s.hasCtx then initEvent (draw (updateProperties (assign s o))) else s

/-- A chart as produced by new SleepWave() followed by init(dom) on a
mount point measuring w by h: the class-field defaults of sleepWave.ts,
a fresh canvas of that size, and no listeners yet. -/
def initChart (w h : ℚ) : SleepWave :=
  { hasCtx := true, canvasWidth := w, canvasHeight := h, children := [],
    sleepType := ["深睡", "浅睡", "眼动", "清醒"],
    sleepColor := ["#FFB9E4", "#D3B4FF", "#9345FF", "#5701CD"],
    sleepData := [], axisColor := "#EAEAEA",
    axisYwidth := 50, axisXheight := 20,
    Xmax := 800, Xmin := 0, Xdis := 1, Ydis := 1,
    borderRadius := 12, lineWidth := 2,
    listeners := [], nextListenerId := 0 }

/-- Invariant of the listener model: every registered closure identity is
older than the next fresh one, so a freshly created throttle closure is
never structurally present on the canvas already. -/
def listenerIdsFresh (s : SleepWave) : Prop :=
  ∀ pr ∈ s.listeners, pr.2 < s.nextListenerId

instance (s : SleepWave) : Decidable (listenerIdsFresh s) := by
  unfold listenerIdsFresh; infer_instance

/-! Concrete instances used by counterexamples and witnesses. -/

/-- A sample block: a 20-wide, 20-high region with its top-left corner at
(10, 5). -/
def b0 : SleepWaveBlock :=
  { startX := 10, startY := 5, endX := 30, endY := 25, hasStraight := true,
    nowRadius := 3, color := "#FFB9E4", title := "深睡", value := 20,
    borderRadius := 12, lineWidth := 2 }

/-- A canvas whose bounding box starts at the viewport origin. -/
def box0 : BBox := { left := 0, top := 0 }

/-- A sample hover state: pointer cursor, visible tooltip. -/
def ist0 : InteractionState :=
  { cursor := "pointer", visible := true, pos := (1, 2),
    blockInfo := { color := "#FFB9E4", title := "深睡", value := 20 },
    point := (0, 0) }

/-- The empty option object: setOption({}) keeps every field. -/
def emptyOptions : SleepWaveOptions := {}

/-- An initialized chart whose type-label and color lists have length 2
(K = 2), with a 120-pixel-high canvas and the default 20-pixel X-axis
inset. -/
def chartK2 : SleepWave :=
  { initChart 800 120 with
    sleepType := ["深睡", "清醒"], sleepColor := ["#FFB9E4", "#5701CD"] }

/-- The claim's throttle scenario, shifted to absolute Date.now times:
events at base, base+10, base+20 and base+60 ms. The closure's
lastExecTime starts at 0, and Date.now is epoch milliseconds, so the
base of a real scenario is far larger than the 50 ms window. -/
def throttleTrace (base : ℤ) : List (ℤ × ℕ) :=
  [(base, 1), (base + 10, 2), (base + 20, 3), (base + 60, 4)]

/-- The option object of the end-to-end example: data [[120,0],[80,1]]. -/
def optW : SleepWaveOptions := { sleepData := some [(120, 0), (80, 1)] }

/-- The end-to-end example data. -/
def dataDemo : List (ℚ × ℕ) := [(120, 0), (80, 1)]

/-- A data list whose type indices are all identical. -/
def dataSame : List (ℚ × ℕ) := [(10, 2), (20, 2), (30, 2)]

/-- The layout parameters the draw fold reads after
setOption({sleepData: [[120,0],[80,1]]}) on an 800 by 300 canvas. -/
def pDemo : LayoutParams :=
  layoutParamsOf (updateProperties (assign (initChart 800 300) optW))

/-- A chart whose canvas height makes Ydis 40 while 100 is configured as
borderRadius. -/
def chartY40 : SleepWave := { initChart 800 180 with borderRadius := 100 }

/-- Layout parameters with effective corner radius 12 and an x-scale of
one pixel per unit. -/
def pNarrow : LayoutParams :=
  { axisYwidth := 50, Xdis := 1, Ydis := 70, borderRadius := 12,
    sleepColor := ["#FFB9E4", "#D3B4FF", "#9345FF", "#5701CD"],
    sleepType := ["深睡", "浅睡", "眼动", "清醒"], lineWidth := 2 }

/-- The block laid out for a 6-unit interval under pNarrow: narrower than
twice the corner radius. -/
def segNarrow : SleepWaveBlock := layoutSeg pNarrow 50 (6, 0)

/-- An event hub with three registrations for click, handler 1 appearing
twice. -/
def ev0 : Event := { listener := [("click", [1, 2, 1])] }

/-- Handler behaviour where every handler returns normally. -/
def behOk : ℕ → EventPayload → Option String := fun _ _ => none

/-- Handler behaviour where handler 2 throws. -/
def behBoom : ℕ → EventPayload → Option String :=
  fun hd _ => if hd = 2 then some "boom" else none

/-- A well-formed payload (its type field is present). -/
def goodPl : EventPayload := { type := some "click", detail := 7 }

/-- A payload whose type field is null. -/
def badPl : EventPayload := { type := none, detail := 7 }

/-! Helper lemmas shared by the claim theorems. -/

theorem getD_idem {α : Type} (o : Option α) (a : α) : o.getD (o.getD a) = o.getD a := by
  cases o <;> rfl

theorem min_absorb (a b : ℚ) : min a (min a b) = min a b := by
  rw [← min_assoc, min_self]

theorem attachThrottled_eq (s : SleepWave) (n : String) :
    attachThrottled s n =
      { s with nextListenerId := s.nextListenerId + 1,
               listeners := if (n, s.nextListenerId) ∈ s.listeners then s.listeners
                 else s.listeners ++ [(n, s.nextListenerId)] } := by
  unfold attachThrottled addEventListener
  by_cases h : (n, s.nextListenerId) ∈ s.listeners
  · simp [h]
  · simp [h]

theorem runHandlers_ok (beh : ℕ → EventPayload → Option String) (pl : EventPayload) :
    ∀ hs : List ℕ, (∀ hd ∈ hs, beh hd pl = none) → runHandlers beh pl hs = (hs, none)
  | [], _ => rfl
  | hd :: rest, hall => by
    have h1 : beh hd pl = none := hall hd (by simp)
    have h2 := runHandlers_ok beh pl rest (fun x hx => hall x (by simp [hx]))
    simp [runHandlers, h1, h2]

theorem runHandlers_throw (beh : ℕ → EventPayload → Option String) (pl : EventPayload)
    (hx : ℕ) (msg : String) (hthrow : beh hx pl = some msg) (hs2 : List ℕ) :
    ∀ hs1 : List ℕ, (∀ hd ∈ hs1, beh hd pl = none) →
      runHandlers beh pl (hs1 ++ hx :: hs2) = (hs1 ++ [hx], some msg)
  | [], _ => by simp [runHandlers, hthrow]
  | hd :: rest, hall => by
    have h1 : beh hd pl = none := hall hd (by simp)
    have h2 := runHandlers_throw beh pl hx msg hthrow hs2 rest
      (fun x hxm => hall x (by simp [hxm]))
    simp [runHandlers, h1, h2]

theorem layoutSeg_startX (p : LayoutParams) (x : ℚ) (item : ℚ × ℕ) :
    (layoutSeg p x item).startX = x := rfl

theorem layoutSeg_endX (p : LayoutParams) (x : ℚ) (item : ℚ × ℕ) :
    (layoutSeg p x item).endX = x + item.1 * p.Xdis := rfl

theorem drawStep_children (p : LayoutParams) (acc : DrawAcc) (item : ℚ × ℕ) :
    (drawStep p acc item).children = acc.children ++ [layoutSeg p (accStart p acc) item] := rfl

theorem drawStep_accStart (p : LayoutParams) (acc : DrawAcc) (item : ℚ × ℕ) :
    accStart p (drawStep p acc item) = (layoutSeg p (accStart p acc) item).endX := rfl

theorem foldl_drawStep_children (p : LayoutParams) :
    ∀ (l : List (ℚ × ℕ)) (acc : DrawAcc),
      (l.foldl (drawStep p) acc).children = acc.children ++ segsFrom p (accStart p acc) l
  | [], acc => by simp [segsFrom]
  | it :: l, acc => by
    rw [List.foldl_cons, foldl_drawStep_children p l (drawStep p acc it),
      drawStep_children, drawStep_accStart]
    simp [segsFrom]

theorem drawBlocks_children (p : LayoutParams) (l : List (ℚ × ℕ)) :
    (drawBlocks p l).children = segsFrom p p.axisYwidth l := by
  unfold drawBlocks
  rw [foldl_drawStep_children]
  rfl

theorem segsFrom_length (p : LayoutParams) :
    ∀ (l : List (ℚ × ℕ)) (x : ℚ), (segsFrom p x l).length = l.length
  | [], _ => rfl
  | _ :: l, x => by simp [segsFrom, segsFrom_length p l]

theorem segsFrom_get_startX_zero (p : LayoutParams) :
    ∀ (l : List (ℚ × ℕ)) (x : ℚ) (h : 0 < (segsFrom p x l).length),
      ((segsFrom p x l).get ⟨0, h⟩).startX = x
  | [], x, h => by simp [segsFrom] at h
  | it :: l, x, _ => by simp [segsFrom, layoutSeg_startX]

theorem segsFrom_chain (p : LayoutParams) :
    ∀ (l : List (ℚ × ℕ)) (x : ℚ) (i : ℕ) (h : i + 1 < (segsFrom p x l).length),
      ((segsFrom p x l).get ⟨i + 1, h⟩).startX
        = ((segsFrom p x l).get ⟨i, Nat.lt_of_succ_lt h⟩).endX
  | [], x, i, h => by simp [segsFrom] at h
  | it :: l, x, 0, h => by
    cases l with
    | nil => simp [segsFrom] at h
    | cons it2 l2 => simp [segsFrom, layoutSeg_startX]
  | it :: l, x, i + 1, h => by
    have h2 : i + 1 < (segsFrom p (layoutSeg p x it).endX l).length := by
      simpa [segsFrom] using h
    have := segsFrom_chain p l (layoutSeg p x it).endX i h2
    simpa [segsFrom] using this

theorem segsFrom_width (p : LayoutParams) :
    ∀ (l : List (ℚ × ℕ)) (x : ℚ) (i : ℕ) (h : i < (segsFrom p x l).length)
      (h2 : i < l.length),
      ((segsFrom p x l).get ⟨i, h⟩).endX - ((segsFrom p x l).get ⟨i, h⟩).startX
        = (l.get ⟨i, h2⟩).1 * p.Xdis
  | [], x, i, h, _ => by simp [segsFrom] at h
  | it :: l, x, 0, h, h2 => by
    simp [segsFrom, layoutSeg_startX, layoutSeg_endX]
  | it :: l, x, i + 1, h, h2 => by
    have hs : i < (segsFrom p (layoutSeg p x it).endX l).length := by
      simpa [segsFrom] using h
    have hl : i < l.length := by simpa using h2
    have := segsFrom_width p l (layoutSeg p x it).endX i hs hl
    simpa [segsFrom] using this

theorem segsFrom_sum (p : LayoutParams) :
    ∀ (l : List (ℚ × ℕ)) (x : ℚ),
      ((segsFrom p x l).map (fun b => b.endX - b.startX)).sum
        = (l.map (fun it => it.1)).sum * p.Xdis
  | [], x => by simp [segsFrom]
  | it :: l, x => by
    simp [segsFrom, segsFrom_sum p l, layoutSeg_startX, layoutSeg_endX, add_mul]

theorem segsFrom_mem (p : LayoutParams) :
    ∀ (l : List (ℚ × ℕ)) (x : ℚ) (b : SleepWaveBlock), b ∈ segsFrom p x l →
      b.hasStraight = decide (b.endX - b.startX > 2 * p.borderRadius)
        ∧ b.nowRadius = (if b.hasStraight then p.borderRadius else (b.endX - b.startX) / 2)
        ∧ b.borderRadius = p.borderRadius
  | [], x, b, hb => by simp [segsFrom] at hb
  | it :: l, x, b, hb => by
    have hb2 : b = layoutSeg p x it ∨ b ∈ segsFrom p (layoutSeg p x it).endX l := by
      simpa [segsFrom] using hb
    rcases hb2 with h | h
    · subst h
      exact ⟨rfl, rfl, rfl⟩
    · exact segsFrom_mem p l (layoutSeg p x it).endX b h

theorem foldl_drawStep_connectors (p : LayoutParams) :
    ∀ (l : List (ℚ × ℕ)) (acc : DrawAcc),
      (l.foldl (drawStep p) acc).connectors.length
        = acc.connectors.length +
          (match acc.pre with
            | some pr => transitionsFrom pr.2.1 l
            | none => transitions l)
  | [], acc => by rcases acc with ⟨_ | pr, cs, ks⟩ <;> simp [transitions, transitionsFrom]
  | it :: l, acc => by
    rw [List.foldl_cons, foldl_drawStep_connectors p l (drawStep p acc it)]
    rcases acc with ⟨_ | pr, cs, ks⟩
    · simp [drawStep, transitions]
    · by_cases hne : pr.2.1 ≠ it.2
      · simp [drawStep, hne, transitionsFrom]
        omega
      · simp [drawStep, hne, transitionsFrom]

theorem drawBlocks_connectors (p : LayoutParams) (l : List (ℚ × ℕ)) :
    (drawBlocks p l).connectors.length = transitions l := by
  unfold drawBlocks
  rw [foldl_drawStep_connectors]
  simp

theorem transitionsFrom_const (t : ℕ) :
    ∀ l : List (ℚ × ℕ), (∀ it ∈ l, it.2 = t) → transitionsFrom t l = 0
  | [], _ => rfl
  | it :: l, hall => by
    have h1 : it.2 = t := hall it (by simp)
    have h2 := transitionsFrom_const t l (fun x hx => hall x (by simp [hx]))
    simp [transitionsFrom, h1, h2]

theorem transitions_const (t : ℕ) (l : List (ℚ × ℕ)) (hall : ∀ it ∈ l, it.2 = t) :
    transitions l = 0 := by
  cases l with
  | nil => rfl
  | cons it l =>
    have h1 : it.2 = t := hall it (by simp)
    have h2 : ∀ x ∈ l, x.2 = t := fun x hx => hall x (by simp [hx])
    simp [transitions, h1, transitionsFrom_const t l h2]

theorem setOption_fields (s : SleepWave) (o : SleepWaveOptions) (h : s.hasCtx = true) :
    (setOption s o).hasCtx = true
    ∧ (setOption s o).canvasWidth = s.canvasWidth
    ∧ (setOption s o).canvasHeight = s.canvasHeight
    ∧ (setOption s o).sleepData = o.sleepData.getD s.sleepData
    ∧ (setOption s o).sleepType = o.sleepType.getD s.sleepType
    ∧ (setOption s o).sleepColor = o.sleepColor.getD s.sleepColor
    ∧ (setOption s o).axisYwidth = o.axisYwidth.getD s.axisYwidth
    ∧ (setOption s o).axisXheight = o.axisXheight.getD s.axisXheight
    ∧ (setOption s o).Xmax = o.Xmax.getD s.Xmax
    ∧ (setOption s o).Xmin = o.Xmin.getD s.Xmin
    ∧ (setOption s o).lineWidth = o.lineWidth.getD s.lineWidth
    ∧ (setOption s o).Xdis = (s.canvasWidth - o.axisYwidth.getD s.axisYwidth)
        / (o.Xmax.getD s.Xmax - o.Xmin.getD s.Xmin)
    ∧ (setOption s o).Ydis = (s.canvasHeight - o.axisXheight.getD s.axisXheight) / 4
    ∧ (setOption s o).borderRadius =
        min ((s.canvasHeight - o.axisXheight.getD s.axisXheight) / 4 / 4)
          (o.borderRadius.getD s.borderRadius) := by
  simp [setOption, assign, updateProperties, draw, initEvent, eventList,
    attachThrottled_eq, h]

theorem setOption_children (s : SleepWave) (o : SleepWaveOptions) (h : s.hasCtx = true) :
    (setOption s o).children =
      (drawBlocks
        { axisYwidth := o.axisYwidth.getD s.axisYwidth,
          Xdis := (s.canvasWidth - o.axisYwidth.getD s.axisYwidth)
            / (o.Xmax.getD s.Xmax - o.Xmin.getD s.Xmin),
          Ydis := (s.canvasHeight - o.axisXheight.getD s.axisXheight) / 4,
          borderRadius := min ((s.canvasHeight - o.axisXheight.getD s.axisXheight) / 4 / 4)
            (o.borderRadius.getD s.borderRadius),
          sleepColor := o.sleepColor.getD s.sleepColor,
          sleepType := o.sleepType.getD s.sleepType,
          lineWidth := o.lineWidth.getD s.lineWidth }
        (o.sleepData.getD s.sleepData)).children := by
  simp [setOption, assign, updateProperties, draw, initEvent, eventList,
    attachThrottled_eq, layoutParamsOf, h]

theorem attachThrottled_fresh (s : SleepWave) (n : String) (hfresh : listenerIdsFresh s) :
    (attachThrottled s n).listeners = s.listeners ++ [(n, s.nextListenerId)]
    ∧ (attachThrottled s n).nextListenerId = s.nextListenerId + 1
    ∧ listenerIdsFresh (attachThrottled s n) := by
  have hmem : (n, s.nextListenerId) ∉ s.listeners := by
    intro hm
    have := hfresh _ hm
    omega
  rw [attachThrottled_eq]
  refine ⟨by simp [hmem], by simp, ?_⟩
  intro pr hpr
  simp [hmem] at hpr ⊢
  rcases hpr with hpr | hpr
  · have := hfresh pr hpr
    omega
  · subst hpr
    omega

theorem draw_proj (s : SleepWave) :
    (draw s).listeners = s.listeners ∧ (draw s).nextListenerId = s.nextListenerId
      ∧ (draw s).hasCtx = s.hasCtx := by
  unfold draw
  split <;> exact ⟨rfl, rfl, rfl⟩

theorem updateProperties_proj (s : SleepWave) :
    (updateProperties s).listeners = s.listeners
      ∧ (updateProperties s).nextListenerId = s.nextListenerId
      ∧ (updateProperties s).hasCtx = s.hasCtx := by
  unfold updateProperties
  split <;> exact ⟨rfl, rfl, rfl⟩

theorem pre_setOption_listeners (s : SleepWave) (o : SleepWaveOptions) :
    (draw (updateProperties (assign s o))).listeners = s.listeners
    ∧ (draw (updateProperties (assign s o))).nextListenerId = s.nextListenerId
    ∧ (draw (updateProperties (assign s o))).hasCtx = s.hasCtx := by
  obtain ⟨d1, d2, d3⟩ := draw_proj (updateProperties (assign s o))
  obtain ⟨u1, u2, u3⟩ := updateProperties_proj (assign s o)
  exact ⟨by rw [d1, u1]; rfl, by rw [d2, u2]; rfl, by rw [d3, u3]; rfl⟩

theorem setOption_listeners (s : SleepWave) (o : SleepWaveOptions) (h : s.hasCtx = true)
    (hfresh : listenerIdsFresh s) :
    (setOption s o).listeners
      = s.listeners ++ [("click", s.nextListenerId), ("mousemove", s.nextListenerId + 1)]
    ∧ (setOption s o).nextListenerId = s.nextListenerId + 2
    ∧ listenerIdsFresh (setOption s o) := by
  obtain ⟨hl, hn, hc⟩ := pre_setOption_listeners s o
  have hfreshU : listenerIdsFresh (draw (updateProperties (assign s o))) := by
    unfold listenerIdsFresh
    rw [hl, hn]
    exact hfresh
  obtain ⟨ha1, ha2, ha3⟩ :=
    attachThrottled_fresh (draw (updateProperties (assign s o))) "click" hfreshU
  obtain ⟨hb1, hb2, hb3⟩ :=
    attachThrottled_fresh (attachThrottled (draw (updateProperties (assign s o))) "click")
      "mousemove" ha3
  have hset : setOption s o =
      attachThrottled (attachThrottled (draw (updateProperties (assign s o))) "click")
        "mousemove" := by
    unfold setOption initEvent eventList
    rw [if_pos h, if_pos (by rw [hc]; exact h)]
    rfl
  rw [hset]
  refine ⟨?_, ?_, hb3⟩
  · rw [hb1, ha1, ha2, hl, hn]
    simp
  · rw [hb2, ha2, hn]

theorem setOption_hasCtx (s : SleepWave) (o : SleepWaveOptions) (h : s.hasCtx = true) :
    (setOption s o).hasCtx = true := (setOption_fields s o h).1

theorem foldl_setOption :
    ∀ (configs : List SleepWaveOptions) (s : SleepWave),
      s.hasCtx = true → listenerIdsFresh s →
      (configs.foldl setOption s).listeners.length = s.listeners.length + 2 * configs.length
      ∧ ((configs.foldl setOption s).listeners.filter (fun pr => pr.1 == "click")).length
          = (s.listeners.filter (fun pr => pr.1 == "click")).length + configs.length
      ∧ ((configs.foldl setOption s).listeners.filter (fun pr => pr.1 == "mousemove")).length
          = (s.listeners.filter (fun pr => pr.1 == "mousemove")).length + configs.length
  | [], s, _, _ => by simp
  | o :: configs, s, h, hfresh => by
    obtain ⟨hl, _, hf⟩ := setOption_listeners s o h hfresh
    obtain ⟨ih1, ih2, ih3⟩ :=
      foldl_setOption configs (setOption s o) (setOption_hasCtx s o h) hf
    rw [List.foldl_cons]
    refine ⟨?_, ?_, ?_⟩
    · rw [ih1, hl]
      simp
      omega
    · rw [ih2, hl]
      simp [List.filter_append]
      omega
    · rw [ih3, hl]
      simp [List.filter_append]
      omega

theorem isEventInRegion_fst (b : SleepWaveBlock) (box : BBox) (ist : InteractionState)
    (cx cy : ℚ) :
    (isEventInRegion b box ist cx cy).1
      = decide (b.startX < cx - box.left ∧ cx - box.left < b.startX + (b.endX - b.startX)
          ∧ b.startY < cy - box.top ∧ cy - box.top < b.startY + (b.endY - b.startY)) := by
  simp only [isEventInRegion, getEventPosition]
  split_ifs with h
  · simp only [decide_eq_true_eq]
    exact (by simpa using h)
  · symm
    simp only [decide_eq_false_iff_not]
    simpa using h

/-! The claim theorems. -/

/-- Claim C1, amended: for every block and pointer coordinate,
isEventInRegion first converts the coordinate to chart-local space by
subtracting the surface's bounding-box offset, and returns true exactly
when the local point lies in the OPEN box
(startX, startX+width) x (startY, startY+height): boundary points on
every edge return false, at x = startX just as at x = startX+width. -/
theorem claimC1 (b : SleepWaveBlock) (box : BBox) (ist : InteractionState) (cx cy : ℚ) :
    ((isEventInRegion b box ist cx cy).2.point = (cx - box.left, cy - box.top))
    ∧ ((isEventInRegion b box ist cx cy).1 = true ↔
        (b.startX < cx - box.left ∧ cx - box.left < b.startX + (b.endX - b.startX)
          ∧ b.startY < cy - box.top ∧ cy - box.top < b.startY + (b.endY - b.startY))) := by
  simp only [isEventInRegion, getEventPosition]
  split_ifs with h
  · exact ⟨rfl, by simpa using h⟩
  · exact ⟨rfl, by simpa using h⟩

/-- Claim C1, counterexample: with zero bounding-box offset, the local
point (10, 15) lies in the claimed half-open box of block b0 (its x
equals startX), yet isEventInRegion returns false. -/
theorem claimC1_counterexample :
    specHalfOpenBox b0 10 15 ∧ (isEventInRegion b0 box0 ist0 10 15).1 = false := by
  constructor
  · norm_num [specHalfOpenBox, b0]
  · rw [isEventInRegion_fst]
    norm_num [b0, box0]

/-- Claim C2, amended: the divisor in the lane scale is the literal 4,
independent of the number of type labels: for every initialized chart
and option object, setOption recomputes Ydis as
(canvasHeight - axisXheight) / 4; the claimed formula with divisor K
holds only in the default case K = 4. -/
theorem claimC2 (s : SleepWave) (o : SleepWaveOptions) (h : s.hasCtx = true) :
    (setOption s o).Ydis =
      ((setOption s o).canvasHeight - (setOption s o).axisXheight) / 4 := by
  obtain ⟨-, -, hch, -, -, -, -, hax, -, -, -, -, hyd, -⟩ := setOption_fields s o h
  rw [hyd, hch, hax]

theorem claimC2_witness :
    (initChart 800 300).hasCtx = true
    ∧ (setOption (initChart 800 300) emptyOptions).Ydis
        = ((setOption (initChart 800 300) emptyOptions).canvasHeight
          - (setOption (initChart 800 300) emptyOptions).axisXheight) / 4 :=
  ⟨rfl, claimC2 (initChart 800 300) emptyOptions rfl⟩

/-- Claim C2, counterexample: on a chart with K = 2 type labels (and 2
colors), a 120-pixel-high canvas and the default 20-pixel X-axis inset,
setOption computes Ydis = 100/4 = 25, not
(canvasHeight - axisXheight)/K = 50. -/
theorem claimC2_counterexample :
    (setOption chartK2 emptyOptions).Ydis ≠
      ((setOption chartK2 emptyOptions).canvasHeight
        - (setOption chartK2 emptyOptions).axisXheight)
        / ((setOption chartK2 emptyOptions).sleepType.length : ℚ) := by
  obtain ⟨-, -, hch, -, hst, -, -, hax, -, -, -, -, hyd, -⟩ :=
    setOption_fields chartK2 emptyOptions rfl
  rw [hyd, hch, hax, hst]
  norm_num [chartK2, initChart, emptyOptions]

/-- Claim C3, amended: the throttle is leading-plus-trailing, and a
trailing dispatch resets the 50ms window. For events at times base,
base+10, base+20, base+60 (absolute Date.now milliseconds, base larger
than the window so that the first event is outside the initial window)
exactly THREE dispatches occur: a leading one at base with the first
event, a trailing one at base+50 carrying the most recent event of that
window (the base+20 event), and a further trailing one at base+100
carrying the base+60 event, because the trailing dispatch at base+50
started a new window containing base+60. -/
theorem claimC3 (base : ℤ) (h : 50 < base) :
    (runThrottle 50 (throttleTrace base)).dispatches
      = [(base, 1), (base + 50, 3), (base + 100, 4)]
    ∧ (runThrottle 50 (throttleTrace base)).dispatches.length = 3 := by
  have e2 : throttleCall 50 (fireDue throttleInit base) base 1
      = ⟨base, none, [(base, 1)]⟩ := by
    show throttleCall 50 throttleInit base 1 = _
    unfold throttleCall
    dsimp only [throttleInit]
    rw [if_pos (show base - (0 : ℤ) > 50 by omega)]
    rfl
  have e3 : throttleCall 50
        (fireDue (⟨base, none, [(base, 1)]⟩ : ThrottleState) (base + 10)) (base + 10) 2
      = ⟨base, some (base + 50, 2), [(base, 1)]⟩ := by
    show throttleCall 50 (⟨base, none, [(base, 1)]⟩ : ThrottleState) (base + 10) 2 = _
    unfold throttleCall
    dsimp only
    rw [if_neg (show ¬(base + 10 - base > 50) by omega)]
    simp only [ThrottleState.mk.injEq, Option.some.injEq, Prod.mk.injEq, and_true, true_and]
    omega
  have e4 : fireDue (⟨base, some (base + 50, 2), [(base, 1)]⟩ : ThrottleState) (base + 20)
      = ⟨base, some (base + 50, 2), [(base, 1)]⟩ := by
    unfold fireDue
    dsimp only
    rw [if_neg (show ¬(base + 50 ≤ base + 20) by omega)]
  have e5 : throttleCall 50 (⟨base, some (base + 50, 2), [(base, 1)]⟩ : ThrottleState)
        (base + 20) 3
      = ⟨base, some (base + 50, 3), [(base, 1)]⟩ := by
    unfold throttleCall
    dsimp only
    rw [if_neg (show ¬(base + 20 - base > 50) by omega)]
    simp only [ThrottleState.mk.injEq, Option.some.injEq, Prod.mk.injEq, and_true, true_and]
    omega
  have e6 : fireDue (⟨base, some (base + 50, 3), [(base, 1)]⟩ : ThrottleState) (base + 60)
      = ⟨base + 50, none, [(base, 1), (base + 50, 3)]⟩ := by
    unfold fireDue
    dsimp only
    rw [if_pos (show base + 50 ≤ base + 60 by omega)]
    rfl
  have e7 : throttleCall 50
        (⟨base + 50, none, [(base, 1), (base + 50, 3)]⟩ : ThrottleState) (base + 60) 4
      = ⟨base + 50, some (base + 100, 4), [(base, 1), (base + 50, 3)]⟩ := by
    unfold throttleCall
    dsimp only
    rw [if_neg (show ¬(base + 60 - (base + 50) > 50) by omega)]
    simp only [ThrottleState.mk.injEq, Option.some.injEq, Prod.mk.injEq, and_true, true_and]
    omega
  have efold : runThrottle 50 (throttleTrace base)
      = ⟨base + 100, none, [(base, 1), (base + 50, 3), (base + 100, 4)]⟩ := by
    unfold runThrottle throttleTrace
    simp only [List.foldl_cons, List.foldl_nil]
    rw [e2, e3, e4, e5, e6, e7]
    rfl
  rw [efold]
  exact ⟨rfl, rfl⟩

theorem claimC3_witness :
    (50 : ℤ) < 1000000
    ∧ (runThrottle 50 (throttleTrace 1000000)).dispatches
        = [(1000000, 1), (1000050, 3), (1000100, 4)] :=
  ⟨by decide, (claimC3 1000000 (by decide)).1⟩

/-- Claim C3, counterexample: in the claimed scenario (events at base,
base+10, base+20, base+60 with a 50ms window; base = 1000000 standing
for the epoch-scale Date.now value of the first event) the number of
dispatches is 3, not the claimed 2. -/
theorem claimC3_counterexample :
    (runThrottle 50 (throttleTrace 1000000)).dispatches.length ≠ 2 := by
  decide

/-- Claim C7: for every block and pointer coordinate, when
isEventInRegion returns false it also, in the same call, resets the
cursor to "default" and sets tooltip.visible to false; when it returns
true it leaves the cursor and the tooltip fields (visible, pos,
blockInfo) unchanged. -/
theorem claimC7 (b : SleepWaveBlock) (box : BBox) (ist : InteractionState) (cx cy : ℚ) :
    ((isEventInRegion b box ist cx cy).1 = false →
      (isEventInRegion b box ist cx cy).2.cursor = "default"
        ∧ (isEventInRegion b box ist cx cy).2.visible = false)
    ∧ ((isEventInRegion b box ist cx cy).1 = true →
      (isEventInRegion b box ist cx cy).2.cursor = ist.cursor
        ∧ (isEventInRegion b box ist cx cy).2.visible = ist.visible
        ∧ (isEventInRegion b box ist cx cy).2.pos = ist.pos
        ∧ (isEventInRegion b box ist cx cy).2.blockInfo = ist.blockInfo) := by
  simp only [isEventInRegion, getEventPosition]
  split_ifs with h
  · exact ⟨fun hf => by simp at hf, fun _ => ⟨rfl, rfl, rfl, rfl⟩⟩
  · exact ⟨fun _ => ⟨rfl, rfl⟩, fun ht => by simp at ht⟩

theorem claimC7_witness :
    (isEventInRegion b0 box0 ist0 0 0).1 = false
    ∧ (isEventInRegion b0 box0 ist0 0 0).2.cursor = "default"
    ∧ (isEventInRegion b0 box0 ist0 0 0).2.visible = false
    ∧ (isEventInRegion b0 box0 ist0 20 15).1 = true
    ∧ (isEventInRegion b0 box0 ist0 20 15).2.visible = ist0.visible := by
  have hmiss : (isEventInRegion b0 box0 ist0 0 0).1 = false := by
    rw [isEventInRegion_fst]
    norm_num [b0, box0]
  have hhit : (isEventInRegion b0 box0 ist0 20 15).1 = true := by
    rw [isEventInRegion_fst]
    norm_num [b0, box0]
  refine ⟨hmiss, ?_, ?_, hhit, ?_⟩
  · exact ((claimC7 b0 box0 ist0 0 0).1 hmiss).1
  · exact ((claimC7 b0 box0 ist0 0 0).1 hmiss).2
  · exact ((claimC7 b0 box0 ist0 20 15).2 hhit).2.1

/-- Claim C8: Event.emit is a no-op (invokes no handler) when the payload
is null or its type field is null; otherwise it invokes every handler
registered for the event name, in insertion order, passing the payload
to each (duplicate registrations each fire); a handler exception is not
caught: it aborts the loop and propagates to the caller. -/
theorem claimC8 (ev : Event) (beh : ℕ → EventPayload → Option String) (ty : String) :
    (Event.emit ev beh ty none = ([], none))
    ∧ (∀ pl : EventPayload, pl.type = none → Event.emit ev beh ty (some pl) = ([], none))
    ∧ (∀ (pl : EventPayload) (hs : List ℕ), pl.type ≠ none → ev.lookup ty = some hs →
        (∀ hd ∈ hs, beh hd pl = none) →
        Event.emit ev beh ty (some pl) = (hs, none))
    ∧ (∀ (pl : EventPayload) (hs1 : List ℕ) (hx : ℕ) (hs2 : List ℕ) (msg : String),
        pl.type ≠ none → ev.lookup ty = some (hs1 ++ hx :: hs2) →
        (∀ hd ∈ hs1, beh hd pl = none) → beh hx pl = some msg →
        Event.emit ev beh ty (some pl) = (hs1 ++ [hx], some msg)) := by
  refine ⟨rfl, ?_, ?_, ?_⟩
  · intro pl hpl
    simp [Event.emit, hpl]
  · intro pl hs hpl hlk hall
    rcases htl : pl.type with _ | v
    · exact absurd htl hpl
    · simp [Event.emit, htl, hlk, runHandlers_ok beh pl hs hall]
  · intro pl hs1 hx hs2 msg hpl hlk hall hthrow
    rcases htl : pl.type with _ | v
    · exact absurd htl hpl
    · simp [Event.emit, htl, hlk, runHandlers_throw beh pl hx msg hthrow hs2 hs1 hall]

theorem claimC8_witness :
    Event.emit ev0 behOk "click" none = ([], none)
    ∧ Event.emit ev0 behOk "click" (some badPl) = ([], none)
    ∧ Event.emit ev0 behOk "click" (some goodPl) = ([1, 2, 1], none)
    ∧ Event.emit ev0 behBoom "click" (some goodPl) = ([1, 2], some "boom") := by
  refine ⟨(claimC8 ev0 behOk "click").1,
    (claimC8 ev0 behOk "click").2.1 badPl rfl, ?_, ?_⟩
  · exact (claimC8 ev0 behOk "click").2.2.1 goodPl [1, 2, 1]
      (by decide) (by decide) (by decide)
  · exact (claimC8 ev0 behBoom "click").2.2.2 goodPl [1] 2 [1] "boom"
      (by decide) (by decide) (by decide) (by decide)

/-- Claim C4: for every layout parameter set and interval list, the draw
fold lays out one block per interval; the first block's startX is
axisYwidth, every subsequent block's startX equals the previous block's
endX, each block's width is its duration times Xdis, and the sum of all
block widths equals the sum of durations times Xdis. -/
theorem claimC4 (p : LayoutParams) (l : List (ℚ × ℕ)) :
    ((drawBlocks p l).children.length = l.length)
    ∧ (∀ h0 : 0 < (drawBlocks p l).children.length,
        ((drawBlocks p l).children.get ⟨0, h0⟩).startX = p.axisYwidth)
    ∧ (∀ (i : ℕ) (hi : i + 1 < (drawBlocks p l).children.length),
        ((drawBlocks p l).children.get ⟨i + 1, hi⟩).startX
          = ((drawBlocks p l).children.get ⟨i, Nat.lt_of_succ_lt hi⟩).endX)
    ∧ (∀ (i : ℕ) (hi : i < (drawBlocks p l).children.length) (hl : i < l.length),
        ((drawBlocks p l).children.get ⟨i, hi⟩).endX
            - ((drawBlocks p l).children.get ⟨i, hi⟩).startX
          = (l.get ⟨i, hl⟩).1 * p.Xdis)
    ∧ (((drawBlocks p l).children.map (fun b => b.endX - b.startX)).sum
        = (l.map (fun it => it.1)).sum * p.Xdis) := by
  have hc := drawBlocks_children p l
  refine ⟨?_, ?_, ?_, ?_, ?_⟩
  · rw [hc]
    exact segsFrom_length p l p.axisYwidth
  · intro h0
    rw [List.get_of_eq hc ⟨0, h0⟩]
    exact segsFrom_get_startX_zero p l p.axisYwidth _
  · intro i hi
    rw [List.get_of_eq hc ⟨i + 1, hi⟩, List.get_of_eq hc ⟨i, Nat.lt_of_succ_lt hi⟩]
    exact segsFrom_chain p l p.axisYwidth i _
  · intro i hi hl
    rw [List.get_of_eq hc ⟨i, hi⟩]
    exact segsFrom_width p l p.axisYwidth i _ hl
  · rw [hc]
    exact segsFrom_sum p l p.axisYwidth

theorem claimC4_witness :
    ((drawBlocks pDemo dataDemo).children.length = 2)
    ∧ (((drawBlocks pDemo dataDemo).children.get ⟨0, by decide⟩).startX = pDemo.axisYwidth)
    ∧ (((drawBlocks pDemo dataDemo).children.get ⟨1, by decide⟩).startX
        = ((drawBlocks pDemo dataDemo).children.get ⟨0, by decide⟩).endX)
    ∧ (((drawBlocks pDemo dataDemo).children.get ⟨0, by decide⟩).endX
          - ((drawBlocks pDemo dataDemo).children.get ⟨0, by decide⟩).startX
        = (dataDemo.get ⟨0, by decide⟩).1 * pDemo.Xdis) := by
  refine ⟨?_, ?_, ?_, ?_⟩
  · rw [(claimC4 pDemo dataDemo).1]
    rfl
  · exact (claimC4 pDemo dataDemo).2.1 (by decide)
  · exact (claimC4 pDemo dataDemo).2.2.1 0 (by decide)
  · exact (claimC4 pDemo dataDemo).2.2.2.1 0 (by decide) (by decide)

/-- Claim C5: during one render the number of connectors drawn equals the
number of adjacent interval pairs with differing type indices (for a
two-interval list, one connector exactly when the type index changes);
an all-identical sequence draws zero connectors, and a single-interval
or empty sequence never draws one. -/
theorem claimC5 (p : LayoutParams) (l : List (ℚ × ℕ)) :
    ((drawBlocks p l).connectors.length = transitions l)
    ∧ (∀ t : ℕ, (∀ it ∈ l, it.2 = t) → (drawBlocks p l).connectors.length = 0)
    ∧ (∀ it : ℚ × ℕ, (drawBlocks p [it]).connectors.length = 0)
    ∧ ((drawBlocks p ([] : List (ℚ × ℕ))).connectors.length = 0)
    ∧ (∀ a b : ℚ × ℕ, (drawBlocks p [a, b]).connectors.length
        = (if a.2 ≠ b.2 then 1 else 0)) := by
  refine ⟨drawBlocks_connectors p l, ?_, ?_, ?_, ?_⟩
  · intro t hall
    rw [drawBlocks_connectors p l, transitions_const t l hall]
  · intro it
    rw [drawBlocks_connectors]
    rfl
  · rw [drawBlocks_connectors]
    rfl
  · intro a b
    rw [drawBlocks_connectors]
    simp [transitions, transitionsFrom]

theorem claimC5_witness :
    ((drawBlocks pDemo dataDemo).connectors.length = 1)
    ∧ ((drawBlocks pDemo dataSame).connectors.length = 0)
    ∧ ((drawBlocks pDemo [(120, 0)]).connectors.length = 0) := by
  refine ⟨?_, ?_, (claimC5 pDemo ([] : List (ℚ × ℕ))).2.2.1 (120, 0)⟩
  · rw [(claimC5 pDemo dataDemo).1]
    rfl
  · exact (claimC5 pDemo dataSame).2.1 2 (by decide)

/-- Claim C6: per render, updateProperties caps the corner radius at a
quarter of the lane height (the effective radius is the minimum of the
configured radius and Ydis/4, hence never exceeds Ydis/4); per laid-out
block, hasStraight holds exactly when the block's width exceeds twice
the effective radius, and the block's own radius is half its width when
hasStraight is false and the effective radius otherwise. -/
theorem claimC6 (s : SleepWave) (h : s.hasCtx = true) (p : LayoutParams)
    (l : List (ℚ × ℕ)) :
    ((updateProperties s).borderRadius = min ((updateProperties s).Ydis / 4) s.borderRadius
      ∧ (updateProperties s).borderRadius ≤ (updateProperties s).Ydis / 4)
    ∧ (∀ b ∈ (drawBlocks p l).children,
        b.hasStraight = decide (b.endX - b.startX > 2 * p.borderRadius)
          ∧ (b.hasStraight = false → b.nowRadius = (b.endX - b.startX) / 2)
          ∧ (b.hasStraight = true → b.nowRadius = p.borderRadius)) := by
  constructor
  · have hmin : (updateProperties s).borderRadius
        = min ((updateProperties s).Ydis / 4) s.borderRadius := by
      simp [updateProperties, h]
    refine ⟨hmin, ?_⟩
    rw [hmin]
    exact min_le_left _ _
  · intro b hb
    rw [drawBlocks_children] at hb
    obtain ⟨h1, h2, -⟩ := segsFrom_mem p l p.axisYwidth b hb
    refine ⟨h1, ?_, ?_⟩
    · intro hf
      rw [h2, hf]
      rfl
    · intro ht
      rw [h2, ht]
      rfl

theorem claimC6_witness :
    (updateProperties chartY40).Ydis = 40
    ∧ (updateProperties chartY40).borderRadius = 10
    ∧ segNarrow.hasStraight = false
    ∧ segNarrow.nowRadius = 3 := by
  have hyd : (updateProperties chartY40).Ydis = 40 := by
    norm_num [updateProperties, chartY40, initChart]
  have hbr := (claimC6 chartY40 rfl pNarrow [(6, 0)]).1.1
  have hmem : segNarrow ∈ (drawBlocks pNarrow [(6, 0)]).children := by
    rw [drawBlocks_children]
    simp [segsFrom, segNarrow, pNarrow]
  have hseg := (claimC6 chartY40 rfl pNarrow [(6, 0)]).2 segNarrow hmem
  have hfalse : segNarrow.hasStraight = false := by
    rw [hseg.1]
    simp only [decide_eq_false_iff_not]
    norm_num [segNarrow, layoutSeg, pNarrow]
  refine ⟨hyd, ?_, hfalse, ?_⟩
  · rw [hbr, hyd]
    have hb100 : chartY40.borderRadius = 100 := by norm_num [chartY40, initChart]
    rw [hb100, min_eq_left (by norm_num : (40 : ℚ) / 4 ≤ 100)]
    norm_num
  · rw [hseg.2.1 hfalse]
    norm_num [segNarrow, layoutSeg, pNarrow]

/-- Claim C9: setOption is idempotent with respect to the segment
collection: on an initialized chart, applying the same option object
twice in succession on an unchanged surface yields exactly the same
children list (same count, and same startX, startY, endX, endY,
hasStraight, nowRadius, color, title and value per block) as applying
it once. -/
theorem claimC9 (s : SleepWave) (o : SleepWaveOptions) (h : s.hasCtx = true) :
    (setOption (setOption s o) o).children = (setOption s o).children := by
  obtain ⟨h1, hcw, hch, hsd, hst, hsc, hay, hax, hxm, hxn, hlw, hxd, hyd, hbr⟩ :=
    setOption_fields s o h
  rw [setOption_children (setOption s o) o h1, setOption_children s o h]
  rw [hcw, hch, hsd, hst, hsc, hay, hax, hxm, hxn, hlw, hbr]
  rcases hob : o.borderRadius with _ | v
  · simp only [hob, Option.getD_none, getD_idem, min_absorb]
  · simp only [hob, Option.getD_some, getD_idem]

theorem claimC9_witness :
    (initChart 800 300).hasCtx = true
    ∧ (setOption (setOption (initChart 800 300) optW) optW).children
        = (setOption (initChart 800 300) optW).children :=
  ⟨rfl, claimC9 (initChart 800 300) optW rfl⟩

/-- Claim C10 (implicit): every setOption call on an initialized chart
attaches one new throttled listener for each of the two tracked event
names (click and mousemove) to the canvas and never removes previously
attached ones: starting from a freshly initialized chart, after n
setOption calls the canvas holds 2n listeners, n for click and n for
mousemove — so a single pointer event of one name is delivered to n
independent throttled dispatch handlers. -/
theorem claimC10 (w hgt : ℚ) (configs : List SleepWaveOptions) :
    ((configs.foldl setOption (initChart w hgt)).listeners.length = 2 * configs.length)
    ∧ (((configs.foldl setOption (initChart w hgt)).listeners.filter
        (fun pr => pr.1 == "click")).length = configs.length)
    ∧ (((configs.foldl setOption (initChart w hgt)).listeners.filter
        (fun pr => pr.1 == "mousemove")).length = configs.length)
    ∧ (∀ (s : SleepWave) (o : SleepWaveOptions), s.hasCtx = true → listenerIdsFresh s →
        (setOption s o).listeners
          = s.listeners
            ++ [("click", s.nextListenerId), ("mousemove", s.nextListenerId + 1)]) := by
  have hfr : listenerIdsFresh (initChart w hgt) := by
    intro pr hpr
    simp [initChart] at hpr
  obtain ⟨f1, f2, f3⟩ := foldl_setOption configs (initChart w hgt) rfl hfr
  refine ⟨?_, ?_, ?_, fun s o hc hf => (setOption_listeners s o hc hf).1⟩
  · rw [f1]
    simp [initChart]
  · rw [f2]
    simp [initChart]
  · rw [f3]
    simp [initChart]

theorem claimC10_witness :
    (([emptyOptions, emptyOptions].foldl setOption (initChart 800 300)).listeners.length = 4)
    ∧ ((setOption (initChart 800 300) emptyOptions).listeners
        = [("click", 0), ("mousemove", 1)]) := by
  constructor
  · have h4 := (claimC10 800 300 [emptyOptions, emptyOptions]).1
    simpa using h4
  · have h2 := (claimC10 800 300 []).2.2.2 (initChart 800 300) emptyOptions rfl
      (by intro pr hpr; simp [initChart] at hpr)
    simpa [initChart] using h2

end SleepWaveSpec
